import Mathlib

/-!
# Verification of the MCP protocol simulation core

A shallow embedding, in Lean 4, of the protocol core of the
`mcp-apps-testing` repository: the JSON-RPC protocol validator
(`validateRequest` / `validateResponse` and the stateful
`ProtocolValidator`), the message bus (`TransportInterceptor`), the mock
peer (`MockMCPHost`), and the session record / load subsystem
(`SessionRecorder`, `loadSession`), together with theorems settling the
behavioural claims about them.

JavaScript dynamic values are embedded as the inductive type `JValue`,
with explicit `typeof` and truthiness functions mirroring the JS
semantics the TypeScript source relies on.  Mutable class instances are
embedded as explicit state records; methods become functions from state
to (result, state).  Asynchronous code in the source is sequential
(every `await` is on an already-computed value in the modelled paths),
so it is embedded directly as pure sequential code.
-/

namespace MCP

/-- A JavaScript/JSON value.  `jundefined` models the JS `undefined` value
(a field that is present but `undefined`, or reading an absent field). -/
inductive JValue where
  | jundefined
  | jnull
  | jbool (b : Bool)
  | jnum (n : Int)
  | jstr (s : String)
  | jarr (elems : List JValue)
  | jobj (fields : List (String × JValue))

/-- JS `typeof` operator (note `typeof null === "object"`). -/
def JValue.typeof : JValue → String
  | .jundefined => "undefined"
  | .jnull => "object"
  | .jbool _ => "boolean"
  | .jnum _ => "number"
  | .jstr _ => "string"
  | .jarr _ => "object"
  | .jobj _ => "object"

/-- JS truthiness: `undefined`, `null`, `false`, `0` and `""` are falsy;
every object and array is truthy. -/
def JValue.truthy : JValue → Bool
  | .jundefined => false
  | .jnull => false
  | .jbool b => b
  | .jnum n => n != 0
  | .jstr s => s != ""
  | .jarr _ => true
  | .jobj _ => true

/-- JS `in` operator on an object: is the key present (even if its value
is `undefined`)?  On non-objects (the modelled code only uses string
keys) the named key is absent. -/
def JValue.hasField : JValue → String → Bool
  | .jobj fields, k => fields.any (fun p => p.1 == k)
  | _, _ => false

/-- JS property read `v[k]`: the value stored under `k`, or `undefined`
when the key is absent or `v` is not an object. -/
def JValue.get : JValue → String → JValue
  | .jobj fields, k => (fields.lookup k).getD .jundefined
  | _, _ => .jundefined

/-- JS strict equality `v === s` against a string literal. -/
def JValue.strictEqStr : JValue → String → Bool
  | .jstr s, t => s == t
  | _, _ => false

/-- JS `Array.isArray`. -/
def JValue.isArray : JValue → Bool
  | .jarr _ => true
  | _ => false

/-- Is this value the JS `undefined`? -/
def JValue.isUndefined : JValue → Bool
  | .jundefined => true
  | _ => false

/-- Is this value the JS `null`? -/
def JValue.isNull : JValue → Bool
  | .jnull => true
  | _ => false

/-- `ValidationResult` from `src/core/ProtocolValidator.ts`:
`{valid, errors, warnings}`. -/
structure ValidationResult where
  valid : Bool
  errors : List String
  warnings : List String

/-- `validateRequest` (ProtocolValidator.ts).  Errors and warnings are
pushed in exactly the source's order: jsonrpc, method, id, params. -/
def validateRequest (request : JValue) : ValidationResult :=
  if !request.truthy || request.typeof != "object" then
    { valid := false, errors := ["Request must be an object"], warnings := [] }
  else
    let e1 := if request.get "jsonrpc" |>.strictEqStr "2.0" then []
              else ["jsonrpc field must be \"2.0\""]
    let e2 := if !(request.get "method").truthy || (request.get "method").typeof != "string" then
                ["method field is required and must be a string"]
              else []
    let idPart :=
      if !request.hasField "id" then
        (([] : List String),
         ["Request missing id field (should be a notification if intentional)"])
      else if (request.get "id").isNull || (request.get "id").isUndefined then
        (["id field cannot be null or undefined in a request"], ([] : List String))
      else ([], [])
    let e4 := if request.hasField "params"
                 && !(request.get "params").isUndefined && !(request.get "params").isNull
                 && (request.get "params").typeof != "object" then
                ["params field must be an object or array if present"]
              else []
    let errors := e1 ++ e2 ++ idPart.1 ++ e4
    { valid := errors.isEmpty, errors := errors, warnings := idPart.2 }

/-- `validateResponse` (ProtocolValidator.ts).  Errors are pushed in
exactly the source's order: jsonrpc, id, neither-result-nor-error,
both-result-and-error, then error structure (code, then message). -/
def validateResponse (response : JValue) : ValidationResult :=
  if !response.truthy || response.typeof != "object" then
    { valid := false, errors := ["Response must be an object"], warnings := [] }
  else
    let e1 := if response.get "jsonrpc" |>.strictEqStr "2.0" then []
              else ["jsonrpc field must be \"2.0\""]
    let e2 := if !response.hasField "id" then ["id field is required in a response"] else []
    let hasResult := response.hasField "result"
    let hasError := response.hasField "error"
    let e3 := if !hasResult && !hasError then
                ["Response must have either result or error field"]
              else []
    let e4 := if hasResult && hasError then
                ["Response cannot have both result and error fields"]
              else []
    let e5 :=
      if hasError && (response.get "error").truthy then
        let error := response.get "error"
        if error.typeof != "object" then ["error field must be an object"]
        else
          (if (error.get "code").typeof == "number" then []
           else ["error.code must be a number"]) ++
          (if (error.get "message").typeof == "string" then []
           else ["error.message must be a string"])
      else []
    let errors := e1 ++ e2 ++ e3 ++ e4 ++ e5
    { valid := errors.isEmpty, errors := errors, warnings := [] }

/-- The mutable state of a `ProtocolValidator` instance
(ProtocolValidator.ts): a strict-mode flag fixed at construction and the
two accumulator buckets. -/
structure ProtocolValidator where
  strictMode : Bool
  validationErrors : List String
  validationWarnings : List String

/-- `new ProtocolValidator(strictMode)`. -/
def ProtocolValidator.new (strictMode : Bool) : ProtocolValidator :=
  { strictMode := strictMode, validationErrors := [], validationWarnings := [] }

/-- Method `ProtocolValidator.validateRequest`: delegates to the pure
`validateRequest` and, when the result is invalid or (in strict mode)
carries warnings, appends the result's errors and warnings to the
corresponding accumulator buckets. -/
def ProtocolValidator.validateRequest (v : ProtocolValidator) (request : JValue) :
    ValidationResult × ProtocolValidator :=
  let result := MCP.validateRequest request
  if !result.valid || (v.strictMode && !result.warnings.isEmpty) then
    (result,
     { v with validationErrors := v.validationErrors ++ result.errors,
              validationWarnings := v.validationWarnings ++ result.warnings })
  else (result, v)

/-- Method `ProtocolValidator.validateResponse`: same accumulation rule
as `ProtocolValidator.validateRequest`, over the pure `validateResponse`. -/
def ProtocolValidator.validateResponse (v : ProtocolValidator) (response : JValue) :
    ValidationResult × ProtocolValidator :=
  let result := MCP.validateResponse response
  if !result.valid || (v.strictMode && !result.warnings.isEmpty) then
    (result,
     { v with validationErrors := v.validationErrors ++ result.errors,
              validationWarnings := v.validationWarnings ++ result.warnings })
  else (result, v)

/-- Method `ProtocolValidator.validateMessage`: dispatches on field
presence — `method` and `id` present: request; `id` with `result` or
`error`: response; `method` without `id`: notification, validated by the
pure `validateRequest` without touching the accumulators. -/
def ProtocolValidator.validateMessage (v : ProtocolValidator) (message : JValue) :
    ValidationResult × ProtocolValidator :=
  if !message.truthy || message.typeof != "object" then
    ({ valid := false, errors := ["Message must be an object"], warnings := [] }, v)
  else if message.hasField "method" && message.hasField "id" then
    v.validateRequest message
  else if message.hasField "id" && (message.hasField "result" || message.hasField "error") then
    v.validateResponse message
  else if message.hasField "method" && !message.hasField "id" then
    (MCP.validateRequest message, v)
  else
    ({ valid := false, errors := ["Unable to determine message type"], warnings := [] }, v)

/-- `ProtocolValidator.getErrors` (returns a copy of the bucket). -/
def ProtocolValidator.getErrors (v : ProtocolValidator) : List String :=
  v.validationErrors

/-- `ProtocolValidator.getWarnings` (returns a copy of the bucket). -/
def ProtocolValidator.getWarnings (v : ProtocolValidator) : List String :=
  v.validationWarnings

/-- `ProtocolValidator.reset`. -/
def ProtocolValidator.reset (v : ProtocolValidator) : ProtocolValidator :=
  { v with validationErrors := [], validationWarnings := [] }

/-- `ProtocolValidator.hasErrors`. -/
def ProtocolValidator.hasErrors (v : ProtocolValidator) : Bool :=
  !v.validationErrors.isEmpty

/-- `ProtocolValidator.hasWarnings`. -/
def ProtocolValidator.hasWarnings (v : ProtocolValidator) : Bool :=
  !v.validationWarnings.isEmpty

/-! ## Message bus: `TransportInterceptor` (src/core/TransportInterceptor.ts)

Hooks and mock handlers are arbitrary closures in the source; here they
are functions over an explicit effect state `σ` (for the mock peer, `σ`
is the peer's own mutable fields), since the modelled handlers only read
and write that state. -/

/-- JSON-RPC message id: `string | number` (src/types.ts). -/
inductive RpcId where
  | num (n : Int)
  | str (s : String)
deriving DecidableEq

/-- `JSONRPCRequest` (src/types.ts).  The `jsonrpc: '2.0'` literal field
is constant by its TypeScript type and is left implicit.  An omitted
`params` is the JS `undefined`. -/
structure JSONRPCRequest where
  id : RpcId
  method : String
  params : JValue

/-- `JSONRPCError` (src/types.ts).  The optional `data` field is never
set by the modelled code paths and is left implicit. -/
structure JSONRPCError where
  code : Int
  message : String

/-- `JSONRPCResponse` (src/types.ts): `result` and `error` are optional
fields (`none` = field absent). -/
structure JSONRPCResponse where
  id : RpcId
  result : Option JValue
  error : Option JSONRPCError

/-- A message in the bus's recorded log:
`JSONRPCRequest | JSONRPCResponse | JSONRPCNotification` (src/types.ts).
Notifications can occur in the type but no modelled code path records
one. -/
inductive Message where
  | request (r : JSONRPCRequest)
  | response (r : JSONRPCResponse)
  | notif (method : String) (params : JValue)

/-- `Map.set` on a JS `Map` keyed by strings, rendered on an association
list: overwrite the entry with this key in place if one exists (a `Map`
never holds two entries with the same key), otherwise append at the
end — preserving the `Map`'s insertion-order semantics. -/
def mapSet {β : Type} : List (String × β) → String → β → List (String × β)
  | [], k, v => [(k, v)]
  | p :: m, k, v => if p.1 == k then (k, v) :: m else p :: mapSet m k v

/-- The mutable state of a `TransportInterceptor` instance, over effect
state `σ` for its registered closures.  The `debug` console-logging flag
only produces console output and is dropped. -/
structure TransportInterceptor (σ : Type) where
  requestInterceptors : List (JSONRPCRequest → σ → JSONRPCRequest × σ)
  responseInterceptors : List (JSONRPCResponse → σ → JSONRPCResponse × σ)
  messageHandlers : List (Message → σ → σ)
  requestMocks : List (String × (JSONRPCRequest → σ → JSONRPCResponse × σ))
  recordedMessages : List Message

/-- `new TransportInterceptor(debug)`. -/
def TransportInterceptor.new (σ : Type) : TransportInterceptor σ :=
  { requestInterceptors := [], responseInterceptors := [], messageHandlers := [],
    requestMocks := [], recordedMessages := [] }

/-- `onRequest`: push a request interceptor (hooks run in registration
order, so registering appends at the end). -/
def TransportInterceptor.onRequest {σ : Type} (t : TransportInterceptor σ)
    (interceptor : JSONRPCRequest → σ → JSONRPCRequest × σ) : TransportInterceptor σ :=
  { t with requestInterceptors := t.requestInterceptors ++ [interceptor] }

/-- `onResponse`: push a response interceptor. -/
def TransportInterceptor.onResponse {σ : Type} (t : TransportInterceptor σ)
    (interceptor : JSONRPCResponse → σ → JSONRPCResponse × σ) : TransportInterceptor σ :=
  { t with responseInterceptors := t.responseInterceptors ++ [interceptor] }

/-- `onMessage`: push a message handler. -/
def TransportInterceptor.onMessage {σ : Type} (t : TransportInterceptor σ)
    (handler : Message → σ → σ) : TransportInterceptor σ :=
  { t with messageHandlers := t.messageHandlers ++ [handler] }

/-- `mockResponse(method, handler)`: `this.requestMocks.set(method, handler)`. -/
def TransportInterceptor.mockResponse {σ : Type} (t : TransportInterceptor σ)
    (method : String) (handler : JSONRPCRequest → σ → JSONRPCResponse × σ) :
    TransportInterceptor σ :=
  { t with requestMocks := mapSet t.requestMocks method handler }

/-- `interceptRequest(request)`: push `request` (unmodified) onto the
log, fold it through the request interceptors in registration order,
then run every message handler on the final request. -/
def TransportInterceptor.interceptRequest {σ : Type} (t : TransportInterceptor σ)
    (request : JSONRPCRequest) (s : σ) :
    JSONRPCRequest × TransportInterceptor σ × σ :=
  let t := { t with recordedMessages := t.recordedMessages ++ [.request request] }
  let folded := t.requestInterceptors.foldl
    (fun (acc : JSONRPCRequest × σ) i => i acc.1 acc.2) (request, s)
  let s2 := t.messageHandlers.foldl (fun s h => h (.request folded.1) s) folded.2
  (folded.1, t, s2)

/-- `interceptResponse(response)`: symmetric to `interceptRequest`. -/
def TransportInterceptor.interceptResponse {σ : Type} (t : TransportInterceptor σ)
    (response : JSONRPCResponse) (s : σ) :
    JSONRPCResponse × TransportInterceptor σ × σ :=
  let t := { t with recordedMessages := t.recordedMessages ++ [.response response] }
  let folded := t.responseInterceptors.foldl
    (fun (acc : JSONRPCResponse × σ) i => i acc.1 acc.2) (response, s)
  let s2 := t.messageHandlers.foldl (fun s h => h (.response folded.1) s) folded.2
  (folded.1, t, s2)

/-- `shouldMock(request)`: look up the mock for `request.method`; if
registered, invoke it and return its response (`some`), otherwise `none`
(the source's `null`). -/
def TransportInterceptor.shouldMock {σ : Type} (t : TransportInterceptor σ)
    (request : JSONRPCRequest) (s : σ) : Option JSONRPCResponse × σ :=
  match t.requestMocks.lookup request.method with
  | some handler =>
    let r := handler request s
    (some r.1, r.2)
  | none => (none, s)

/-- `getRecordedMessages`: returns a copy (`[...log]`) of the log; in
the value semantics of the embedding the copy is the log's value. -/
def TransportInterceptor.getRecordedMessages {σ : Type} (t : TransportInterceptor σ) :
    List Message :=
  t.recordedMessages

/-- `getRecordedRequests`: filter `'method' in msg && 'id' in msg` —
exactly the request-shaped log entries. -/
def TransportInterceptor.getRecordedRequests {σ : Type} (t : TransportInterceptor σ) :
    List JSONRPCRequest :=
  t.recordedMessages.filterMap fun m =>
    match m with
    | .request r => some r
    | _ => none

/-- `getRecordedResponses`: filter `'id' in msg && !('method' in msg)`. -/
def TransportInterceptor.getRecordedResponses {σ : Type} (t : TransportInterceptor σ) :
    List JSONRPCResponse :=
  t.recordedMessages.filterMap fun m =>
    match m with
    | .response r => some r
    | _ => none

/-- `findRequestsByMethod(method)`. -/
def TransportInterceptor.findRequestsByMethod {σ : Type} (t : TransportInterceptor σ)
    (method : String) : List JSONRPCRequest :=
  t.getRecordedRequests.filter fun req => req.method == method

/-- `clearRecordedMessages`. -/
def TransportInterceptor.clearRecordedMessages {σ : Type} (t : TransportInterceptor σ) :
    TransportInterceptor σ :=
  { t with recordedMessages := [] }

/-- `reset`: clears interceptors, handlers, mock registry and log. -/
def TransportInterceptor.reset {σ : Type} (_t : TransportInterceptor σ) :
    TransportInterceptor σ :=
  { requestInterceptors := [], responseInterceptors := [], messageHandlers := [],
    requestMocks := [], recordedMessages := [] }

/-! ## Mock peer: `MockMCPHost` (src/core/MockMCPHost.ts)

The peer's mutable fields that its registered closures touch
(`capabilities`, read by the `initialize` auto-responder, and
`initialized`, set by it) form the bus's effect state `HostEff`; the
request id counter is only touched by `sendRequest` and `cleanup`
directly, never by a handler, and lives beside the bus. -/

/-- The mock peer's handler-visible mutable fields. -/
structure HostEff where
  capabilities : JValue
  initialized : Bool

/-- The auto-responder for `initialize`: flips `initialized`, answers
with the advertised capabilities, a synthetic server identity, and the
fixed protocol version. -/
def initializeResponder (request : JSONRPCRequest) (eff : HostEff) :
    JSONRPCResponse × HostEff :=
  ({ id := request.id,
     result := some (.jobj
       [("protocolVersion", .jstr "2024-11-05"),
        ("capabilities", eff.capabilities),
        ("serverInfo", .jobj
          [("name", .jstr "mock-mcp-server"), ("version", .jstr "0.1.0")])]),
     error := none },
   { eff with initialized := true })

/-- The auto-responder for `ping`: empty result object. -/
def pingResponder (request : JSONRPCRequest) (eff : HostEff) :
    JSONRPCResponse × HostEff :=
  ({ id := request.id, result := some (.jobj []), error := none }, eff)

/-- The auto-responder for `tools/list`: empty catalog. -/
def toolsListResponder (request : JSONRPCRequest) (eff : HostEff) :
    JSONRPCResponse × HostEff :=
  ({ id := request.id, result := some (.jobj [("tools", .jarr [])]), error := none }, eff)

/-- The auto-responder for `resources/list`: empty catalog. -/
def resourcesListResponder (request : JSONRPCRequest) (eff : HostEff) :
    JSONRPCResponse × HostEff :=
  ({ id := request.id, result := some (.jobj [("resources", .jarr [])]), error := none }, eff)

/-- The auto-responder for `prompts/list`: empty catalog. -/
def promptsListResponder (request : JSONRPCRequest) (eff : HostEff) :
    JSONRPCResponse × HostEff :=
  ({ id := request.id, result := some (.jobj [("prompts", .jarr [])]), error := none }, eff)

/-- `setupAutoResponders`: the five `mockResponse` registrations made by
the constructor when `autoRespond` is enabled, in source order. -/
def setupAutoResponders (t : TransportInterceptor HostEff) : TransportInterceptor HostEff :=
  ((((t.mockResponse "initialize" initializeResponder).mockResponse
      "ping" pingResponder).mockResponse
      "tools/list" toolsListResponder).mockResponse
      "resources/list" resourcesListResponder).mockResponse
      "prompts/list" promptsListResponder

/-- The mutable state of a `MockMCPHost` instance. -/
structure MockMCPHost where
  interceptor : TransportInterceptor HostEff
  eff : HostEff
  requestIdCounter : Nat

/-- `new MockMCPHost({autoRespond})`: fresh interceptor, empty
capabilities, uninitialized, id counter `0`; the auto-responders are
installed when `autoRespond` (default `true`). -/
def MockMCPHost.new (autoRespond : Bool) : MockMCPHost :=
  { interceptor :=
      if autoRespond then setupAutoResponders (TransportInterceptor.new HostEff)
      else TransportInterceptor.new HostEff,
    eff := { capabilities := .jobj [], initialized := false },
    requestIdCounter := 0 }

/-- The request object built by `sendRequest`: `{jsonrpc:'2.0',
id: ++this.requestIdCounter, method, params}`. -/
def MockMCPHost.builtRequest (host : MockMCPHost) (method : String) (params : JValue) :
    JSONRPCRequest :=
  { id := .num ((host.requestIdCounter : Int) + 1), method := method, params := params }

/-- `sendRequest(method, params)`: build the request with the
incremented id, push it through `interceptRequest`, resolve via
`shouldMock`; a mocked response (or, if none, the synthesized `-32601`
"Method not found" response carrying the intercepted request's id) is
pushed through `interceptResponse` and returned. -/
def MockMCPHost.sendRequest (host : MockMCPHost) (method : String) (params : JValue) :
    JSONRPCResponse × MockMCPHost :=
  let counter := host.requestIdCounter + 1
  let request := host.builtRequest method params
  let ir := host.interceptor.interceptRequest request host.eff
  let interceptedRequest := ir.1
  let mock := ir.2.1.shouldMock interceptedRequest ir.2.2
  match mock.1 with
  | some mockResponse =>
    let out := ir.2.1.interceptResponse mockResponse mock.2
    (out.1, { interceptor := out.2.1, eff := out.2.2, requestIdCounter := counter })
  | none =>
    let errorResponse : JSONRPCResponse :=
      { id := interceptedRequest.id, result := none,
        error := some { code := -32601, message := "Method not found: " ++ method } }
    let out := ir.2.1.interceptResponse errorResponse mock.2
    (out.1, { interceptor := out.2.1, eff := out.2.2, requestIdCounter := counter })

/-- `setCapabilities(capabilities)`. -/
def MockMCPHost.setCapabilities (host : MockMCPHost) (capabilities : JValue) : MockMCPHost :=
  { host with eff := { host.eff with capabilities := capabilities } }

/-- `isInitialized()`. -/
def MockMCPHost.isInitialized (host : MockMCPHost) : Bool :=
  host.eff.initialized

/-- `cleanup()`: reset the bus, return to uninitialized, id counter `0`. -/
def MockMCPHost.cleanup (host : MockMCPHost) : MockMCPHost :=
  { interceptor := host.interceptor.reset,
    eff := { host.eff with initialized := false },
    requestIdCounter := 0 }

/-- `getRecordedMessages()` (delegates to the interceptor). -/
def MockMCPHost.getRecordedMessages (host : MockMCPHost) : List Message :=
  host.interceptor.getRecordedMessages

/-- `clearRecordedMessages()` (delegates to the interceptor). -/
def MockMCPHost.clearRecordedMessages (host : MockMCPHost) : MockMCPHost :=
  { host with interceptor := host.interceptor.clearRecordedMessages }

/-- Successive `sendRequest` calls (used to state the monotone-id
property); each call is sent with no params. -/
def MockMCPHost.sendMany (host : MockMCPHost) : List String → MockMCPHost
  | [] => host
  | m :: ms => ((host.sendRequest m .jundefined).2).sendMany ms

/-- The ids of the requests recorded on the peer's bus, in log order. -/
def MockMCPHost.loggedRequestIds (host : MockMCPHost) : List RpcId :=
  (host.interceptor.getRecordedRequests).map (fun r => r.id)

/-! ## Session data model and recorder (src/core/SessionRecorder.ts) -/

/-- Message direction tag. -/
inductive Direction where
  | clientToServer
  | serverToClient
deriving DecidableEq

/-- The wire spelling of a direction. -/
def Direction.toWire : Direction → String
  | .clientToServer => "client-to-server"
  | .serverToClient => "server-to-client"

/-- `SessionMessage`: `{timestamp, direction, message}`; the message
itself is a raw JSON-RPC value. -/
structure SessionMessage where
  timestamp : Int
  direction : Direction
  message : JValue

/-- `SessionMetadata`.  Optional fields are `none` when absent. -/
structure SessionMetadata where
  recordedDate : String
  hostName : String
  hostVersion : Option String
  protocolVersion : String
  description : Option String
  source : Option String

/-- `RecordedSession` as produced by `getSession`: the object literal
always carries the four keys; `constraints` / `capabilities` are the JS
`undefined` when the caller omitted them. -/
structure RecordedSession where
  metadata : SessionMetadata
  messages : List SessionMessage
  constraints : JValue
  capabilities : JValue

/-- The mutable state of a `SessionRecorder` instance. -/
structure SessionRecorder where
  recording : Bool
  startTime : Nat
  messages : List SessionMessage
  metadata : SessionMetadata
  validator : ProtocolValidator

/-- `new SessionRecorder(metadata)`. -/
def SessionRecorder.new (metadata : SessionMetadata) : SessionRecorder :=
  { recording := false, startTime := 0, messages := [],
    metadata := metadata, validator := ProtocolValidator.new false }

/-- `startRecording()`: throws if already recording; otherwise marks
recording, records `t0 = now`, clears the working log and resets the
embedded validator. -/
def SessionRecorder.startRecording (r : SessionRecorder) (now : Nat) :
    Except String SessionRecorder :=
  if r.recording then .error "Already recording"
  else .ok { r with recording := true, startTime := now, messages := [],
                    validator := r.validator.reset }

/-- `stopRecording()`: throws if not recording. -/
def SessionRecorder.stopRecording (r : SessionRecorder) : Except String SessionRecorder :=
  if !r.recording then .error "Not currently recording"
  else .ok { r with recording := false }

/-- `isRecording()`. -/
def SessionRecorder.isRecording (r : SessionRecorder) : Bool :=
  r.recording

/-- `recordMessage(direction, message)`: throws if not recording;
otherwise validates the message through the embedded validator (an
invalid message only produces a console warning) and appends
`{timestamp: now - t0, direction, message}` unconditionally. -/
def SessionRecorder.recordMessage (r : SessionRecorder) (direction : Direction)
    (message : JValue) (now : Nat) : Except String SessionRecorder :=
  if !r.recording then .error "Not currently recording. Call startRecording() first."
  else
    let validation := r.validator.validateMessage message
    .ok { r with validator := validation.2,
                 messages := r.messages ++
                   [{ timestamp := (now : Int) - (r.startTime : Int),
                      direction := direction, message := message }] }

/-- `getSession(constraints, capabilities)`: snapshot with the ctor
metadata, `recordedDate` refreshed to the current ISO time, and a copy
of the captured messages. -/
def SessionRecorder.getSession (r : SessionRecorder) (isoNow : String)
    (constraints capabilities : JValue) : RecordedSession :=
  { metadata := { r.metadata with recordedDate := isoNow },
    messages := r.messages,
    constraints := constraints, capabilities := capabilities }

/-- `reset()`: back to idle, clears log and validator state. -/
def SessionRecorder.reset (r : SessionRecorder) : SessionRecorder :=
  { r with recording := false, startTime := 0, messages := [],
           validator := r.validator.reset }

/-- `getMessageCount()`. -/
def SessionRecorder.getMessageCount (r : SessionRecorder) : Nat :=
  r.messages.length

/-! ## Session document serialization and the loader

`exportSession` renders the session with `JSON.stringify(session, null, 2)`
and `loadSession` starts with `JSON.parse`.  On a JSON tree, parsing the
stringified form is the identity except that object fields whose value
is `undefined` are dropped and `undefined` array elements become `null`
— `jsonStrip` below is that net effect. -/

mutual

/-- `JSON.parse ∘ JSON.stringify` on a JSON tree: drop `undefined`
object fields, turn `undefined` array elements into `null`. -/
def jsonStrip : JValue → JValue
  | .jarr elems => .jarr (jsonStripList elems)
  | .jobj fields => .jobj (jsonStripFields fields)
  | v => v

/-- `jsonStrip` on array elements. -/
def jsonStripList : List JValue → List JValue
  | [] => []
  | e :: es => (if e.isUndefined then .jnull else jsonStrip e) :: jsonStripList es

/-- `jsonStrip` on object fields. -/
def jsonStripFields : List (String × JValue) → List (String × JValue)
  | [] => []
  | (k, v) :: fs =>
    if v.isUndefined then jsonStripFields fs else (k, jsonStrip v) :: jsonStripFields fs

end

mutual

/-- A JSON tree with no `undefined` anywhere (such a tree survives
`JSON.stringify` / `JSON.parse` unchanged). -/
def JValue.clean : JValue → Bool
  | .jundefined => false
  | .jarr elems => cleanList elems
  | .jobj fields => cleanFields fields
  | _ => true

/-- `JValue.clean` on array elements. -/
def cleanList : List JValue → Bool
  | [] => true
  | e :: es => e.clean && cleanList es

/-- `JValue.clean` on object fields. -/
def cleanFields : List (String × JValue) → Bool
  | [] => true
  | (_, v) :: fs => v.clean && cleanFields fs

end

/-- Encoding of one session message into the session document. -/
def sessionMessageToJson (m : SessionMessage) : JValue :=
  .jobj [("timestamp", .jnum m.timestamp),
         ("direction", .jstr m.direction.toWire),
         ("message", m.message)]

/-- Encoding of the metadata into the session document (optional fields
are emitted only when present, as `JSON.stringify` leaves them). -/
def metadataToJson (md : SessionMetadata) : JValue :=
  .jobj ([("recordedDate", .jstr md.recordedDate),
          ("hostName", .jstr md.hostName)] ++
         (match md.hostVersion with
          | some v => [("hostVersion", .jstr v)]
          | none => []) ++
         [("protocolVersion", .jstr md.protocolVersion)] ++
         (match md.description with
          | some v => [("description", .jstr v)]
          | none => []) ++
         (match md.source with
          | some v => [("source", .jstr v)]
          | none => []))

/-- The session document as a JSON tree, before stringification. -/
def sessionToJson (s : RecordedSession) : JValue :=
  .jobj [("metadata", metadataToJson s.metadata),
         ("messages", .jarr (s.messages.map sessionMessageToJson)),
         ("constraints", s.constraints),
         ("capabilities", s.capabilities)]

/-- `loadSession(jsonString)` after `JSON.parse`: reject when the
`metadata` or `messages` field is falsy, or when `messages` is not an
array; otherwise return the parsed document (the source's cast to
`RecordedSession` is a no-op at runtime). -/
def loadSession (doc : JValue) : Except String JValue :=
  if !(doc.get "metadata").truthy || !(doc.get "messages").truthy then
    .error "Invalid session format: missing metadata or messages"
  else if !(doc.get "messages").isArray then
    .error "Invalid session format: messages must be an array"
  else .ok doc

/-- Did this call throw (reject)? -/
def throws {α : Type} : Except String α → Bool
  | .error _ => true
  | .ok _ => false

/-- `loadSession(exportSession(...))`: export the recorder's session as
JSON text and parse it back. -/
def SessionRecorder.exportThenLoad (r : SessionRecorder) (isoNow : String)
    (constraints capabilities : JValue) : Except String JValue :=
  loadSession (jsonStrip (sessionToJson (r.getSession isoNow constraints capabilities)))

/-! ## Session comparison (`SessionPlayer.compareSessions`) -/

/-- `{identical, differences}`. -/
structure ComparisonResult where
  identical : Bool
  differences : List String

/-- The `method` field of a session message, when it is a string. -/
def methodOf (m : JValue) : Option String :=
  match m.get "method" with
  | .jstr s => some s
  | _ => none

/-- Modelled from the spec: `SessionPlayer.compareSessions` lives in
`src/core/SessionPlayer.ts`, which is not among the provided sources
(only its tests and documentation are); per-index comparison of two
aligned entries, following §4.5 — a differing direction, a differing
`method`, or a differing `result`/`error` shape each appends a
human-readable difference string. -/
def compareEntry (i : Nat) (x y : SessionMessage) : List String :=
  (if x.direction = y.direction then []
   else ["Message " ++ toString i ++ ": direction differs"]) ++
  (match methodOf x.message, methodOf y.message with
   | some mx, some my =>
     if mx = my then []
     else ["Message " ++ toString i ++ ": method differs (" ++ mx ++ " vs " ++ my ++ ")"]
   | some _, none => ["Message " ++ toString i ++ ": second entry has no method"]
   | none, some _ => ["Message " ++ toString i ++ ": first entry has no method"]
   | none, none =>
     (if x.message.hasField "result" = y.message.hasField "result" then []
      else ["Message " ++ toString i ++ ": result shape differs"]) ++
     (if x.message.hasField "error" = y.message.hasField "error" then []
      else ["Message " ++ toString i ++ ": error shape differs"]))

/-- Modelled from the spec: strictly positional walk over the two
message lists from index `i`, comparing aligned entries and flagging a
missing entry (§4.5). -/
def compareAligned (i : Nat) : List SessionMessage → List SessionMessage → List String
  | x :: xs, y :: ys => compareEntry i x y ++ compareAligned (i + 1) xs ys
  | _ :: xs, [] =>
    ("Message " ++ toString i ++ ": missing in second session") :: compareAligned (i + 1) xs []
  | [], _ :: ys =>
    ("Message " ++ toString i ++ ": missing in first session") :: compareAligned (i + 1) [] ys
  | [], [] => []

/-- Modelled from the spec: `SessionPlayer.compareSessions(a, b)`
(static) — compares message count, then each index positionally;
`identical` is `differences.length === 0` (§4.5, §8). -/
def compareSessions (a b : RecordedSession) : ComparisonResult :=
  let countDiffs :=
    if a.messages.length = b.messages.length then []
    else ["Message count differs: " ++ toString a.messages.length ++
          " vs " ++ toString b.messages.length]
  let ds := countDiffs ++ compareAligned 0 a.messages b.messages
  { identical := ds.isEmpty, differences := ds }

/-! # Theorems -/

/-! ## C1: `validateResponse` field checks -/

/-- Claim C1 (counterexample): the claim "if error is present its code
must be a number and its message a string, otherwise errors are added"
fails on the code: for `{jsonrpc:"2.0", id:1, error:null}` the `error`
field is present and its `code` (undefined) is not a number, yet
`validateResponse` adds no error and returns `valid:true` — the source
guards the error-structure checks with JS truthiness (`hasError &&
res.error`), skipping a `null` error, and the result/error
mutual-exclusion checks use only key presence, so no other error fires
either. -/
theorem validateResponse_nullError_counterexample :
    ((validateResponse (.jobj [("jsonrpc", .jstr "2.0"), ("id", .jnum 1),
        ("error", .jnull)])).valid = true ∧
     (validateResponse (.jobj [("jsonrpc", .jstr "2.0"), ("id", .jnum 1),
        ("error", .jnull)])).errors = []) ∧
    (JValue.jobj [("jsonrpc", .jstr "2.0"), ("id", .jnum 1),
        ("error", .jnull)]).hasField "error" = true ∧
    (((JValue.jobj [("jsonrpc", .jstr "2.0"), ("id", .jnum 1),
        ("error", .jnull)]).get "error").get "code").typeof ≠ "number" := by
  refine ⟨⟨rfl, rfl⟩, rfl, ?_⟩
  decide

/-- Claim C1 (amended): for every truthy object passed to
`validateResponse`: an error if `jsonrpc` is not `"2.0"`; an error if
the `id` field is absent; an error if both `result` and `error` keys are
present, and an error if both are absent; and if the `error` field is
present *and truthy* (not `null`/`undefined`), then a truthy non-object
yields an "error field must be an object" error, while an object whose
`code` is not a number or whose `message` is not a string gains the
corresponding errors; in every case `valid` is exactly whether the
errors list is empty. -/
theorem validateResponse_checks (response : JValue)
    (htruthy : response.truthy = true) (hobj : response.typeof = "object") :
    ((response.get "jsonrpc").strictEqStr "2.0" = false →
      "jsonrpc field must be \"2.0\"" ∈ (validateResponse response).errors) ∧
    (response.hasField "id" = false →
      "id field is required in a response" ∈ (validateResponse response).errors) ∧
    (response.hasField "result" = true → response.hasField "error" = true →
      "Response cannot have both result and error fields" ∈ (validateResponse response).errors) ∧
    (response.hasField "result" = false → response.hasField "error" = false →
      "Response must have either result or error field" ∈ (validateResponse response).errors) ∧
    (response.hasField "error" = true → (response.get "error").truthy = true →
      ((response.get "error").typeof ≠ "object" →
        "error field must be an object" ∈ (validateResponse response).errors) ∧
      ((response.get "error").typeof = "object" →
        ((((response.get "error").get "code").typeof = "number") = false →
          "error.code must be a number" ∈ (validateResponse response).errors) ∧
        ((((response.get "error").get "message").typeof = "string") = false →
          "error.message must be a string" ∈ (validateResponse response).errors))) ∧
    ((validateResponse response).valid = (validateResponse response).errors.isEmpty) := by
  unfold validateResponse
  simp only [htruthy, hobj, Bool.not_true, Bool.false_or, ne_eq, not_true_eq_false]
  norm_num
  repeat' apply And.intro
  all_goals intros
  all_goals simp_all

/-- Claim C1 (witness): instantiating the checks at the spec's concrete
mutual-exclusion scenario `{jsonrpc:"2.0", id:1, result:{},
error:{code:1, message:"x"}}`: invalid, with the mutual-exclusion
error present. -/
theorem validateResponse_checks_witness :
    "Response cannot have both result and error fields" ∈
      (validateResponse (.jobj [("jsonrpc", .jstr "2.0"), ("id", .jnum 1),
        ("result", .jobj []),
        ("error", .jobj [("code", .jnum 1), ("message", .jstr "x")])])).errors ∧
    (validateResponse (.jobj [("jsonrpc", .jstr "2.0"), ("id", .jnum 1),
        ("result", .jobj []),
        ("error", .jobj [("code", .jnum 1), ("message", .jstr "x")])])).valid = false := by
  have h := validateResponse_checks
    (.jobj [("jsonrpc", .jstr "2.0"), ("id", .jnum 1),
            ("result", .jobj []),
            ("error", .jobj [("code", .jnum 1), ("message", .jstr "x")])])
    rfl rfl
  exact ⟨h.2.2.1 rfl rfl, rfl⟩

/-! ## Bus and peer lemmas shared by the claims about them -/

/-- The interceptor returned by `interceptRequest` differs from the
input interceptor only in the log, which gains the *original* request
(pushed before any hook runs). -/
theorem interceptRequest_parts {σ : Type} (t : TransportInterceptor σ)
    (r : JSONRPCRequest) (s : σ) :
    ((t.interceptRequest r s).2.1).recordedMessages = t.recordedMessages ++ [.request r] ∧
    ((t.interceptRequest r s).2.1).requestMocks = t.requestMocks ∧
    ((t.interceptRequest r s).2.1).responseInterceptors = t.responseInterceptors ∧
    ((t.interceptRequest r s).2.1).messageHandlers = t.messageHandlers :=
  ⟨rfl, rfl, rfl, rfl⟩

/-- `interceptResponse` appends the original response to the log before
any hook runs. -/
theorem interceptResponse_log {σ : Type} (t : TransportInterceptor σ)
    (r : JSONRPCResponse) (s : σ) :
    ((t.interceptResponse r s).2.1).recordedMessages = t.recordedMessages ++ [.response r] :=
  rfl

/-- Each `sendRequest` call advances the id counter by exactly one, on
both the mocked and the unmocked path. -/
theorem sendRequest_counter (host : MockMCPHost) (method : String) (params : JValue) :
    ((host.sendRequest method params).2).requestIdCounter = host.requestIdCounter + 1 := by
  unfold MockMCPHost.sendRequest
  dsimp only
  split <;> rfl

/-- Each `sendRequest` call appends exactly the built request and one
response to the bus log, in that order. -/
theorem sendRequest_log (host : MockMCPHost) (method : String) (params : JValue) :
    ∃ resp, ((host.sendRequest method params).2).interceptor.recordedMessages =
        host.interceptor.recordedMessages ++
          [.request (host.builtRequest method params), .response resp] := by
  unfold MockMCPHost.sendRequest
  dsimp only
  split
  case _ resp heq =>
    refine ⟨resp, ?_⟩
    rw [interceptResponse_log, (interceptRequest_parts _ _ _).1]
    simp
  case _ heq =>
    refine ⟨{ id := (host.interceptor.interceptRequest (host.builtRequest method params)
                host.eff).1.id,
              result := none,
              error := some { code := -32601, message := "Method not found: " ++ method } }, ?_⟩
    rw [interceptResponse_log, (interceptRequest_parts _ _ _).1]
    simp

/-- Each `sendRequest` call appends exactly the built request to the
request view of the log. -/
theorem sendRequest_requests (host : MockMCPHost) (method : String) (params : JValue) :
    ((host.sendRequest method params).2).interceptor.getRecordedRequests =
      host.interceptor.getRecordedRequests ++ [host.builtRequest method params] := by
  obtain ⟨resp, hlog⟩ := sendRequest_log host method params
  unfold TransportInterceptor.getRecordedRequests
  rw [hlog, List.filterMap_append]
  rfl

/-- A run of `sendRequest` calls logs consecutive ids continuing from
the current counter. -/
theorem sendMany_ids (ms : List String) : ∀ host : MockMCPHost,
    (host.sendMany ms).loggedRequestIds =
      host.loggedRequestIds ++
        (List.range' (host.requestIdCounter + 1) ms.length).map (fun n => RpcId.num (n : Int)) := by
  induction ms with
  | nil => intro host; simp [MockMCPHost.sendMany, List.range']
  | cons m ms ih =>
    intro host
    rw [MockMCPHost.sendMany, ih, sendRequest_counter]
    have h2 : ((host.sendRequest m .jundefined).2).loggedRequestIds =
        host.loggedRequestIds ++ [RpcId.num ((host.requestIdCounter : Int) + 1)] := by
      unfold MockMCPHost.loggedRequestIds
      rw [sendRequest_requests]
      simp [MockMCPHost.builtRequest]
    rw [h2]
    simp [List.range'_succ, List.append_assoc]

/-- Overwriting the same key twice in a JS `Map` keeps only the second
write. -/
theorem mapSet_mapSet {β : Type} (m : List (String × β)) (k : String) (v1 v2 : β) :
    mapSet (mapSet m k v1) k v2 = mapSet m k v2 := by
  induction m with
  | nil => simp [mapSet]
  | cons p m ih =>
    by_cases hp : p.1 == k
    · simp [mapSet, hp]
    · simp [mapSet, hp, ih]

/-- After `mapSet`, looking up the written key finds the written value. -/
theorem lookup_mapSet {β : Type} (m : List (String × β)) (k : String) (v : β) :
    (mapSet m k v).lookup k = some v := by
  induction m with
  | nil => simp [mapSet, List.lookup]
  | cons p m ih =>
    by_cases hp : p.1 == k
    · simp [mapSet, hp, List.lookup]
    · have hp2 : (p.1 == k) = false := by simpa using hp
      have hk : (k == p.1) = false := by
        simp only [beq_eq_false_iff_ne] at hp2 ⊢
        exact Ne.symm hp2
      simp [mapSet, hp, List.lookup, hk, ih]

/-! ## C2: unmocked methods yield a -32601 response -/

/-- Claim C2: when the intercepted request's method has no registered
mock, `sendRequest` takes exactly the error path of the source: it
synthesizes the Response `{error:{code:-32601, message:"Method not
found: <method>"}}` with the intercepted request's id, pushes it through
`interceptResponse`, and returns that — a total (never-throwing)
computation in this embedding, mirroring the source's throw-free path. -/
theorem sendRequest_unmocked (host : MockMCPHost) (method : String) (params : JValue)
    (hnomock : host.interceptor.requestMocks.lookup
      ((host.interceptor.interceptRequest (host.builtRequest method params) host.eff).1).method
      = none) :
    host.sendRequest method params =
      (let ir := host.interceptor.interceptRequest (host.builtRequest method params) host.eff
       let errorResponse : JSONRPCResponse :=
         { id := ir.1.id, result := none,
           error := some { code := -32601, message := "Method not found: " ++ method } }
       let out := ir.2.1.interceptResponse errorResponse ir.2.2
       (out.1, { interceptor := out.2.1, eff := out.2.2,
                 requestIdCounter := host.requestIdCounter + 1 })) := by
  unfold MockMCPHost.sendRequest
  dsimp only
  have hm : ((host.interceptor.interceptRequest (host.builtRequest method params) host.eff).2.1.shouldMock
      (host.interceptor.interceptRequest (host.builtRequest method params) host.eff).1
      (host.interceptor.interceptRequest (host.builtRequest method params) host.eff).2.2) =
      (none, (host.interceptor.interceptRequest (host.builtRequest method params) host.eff).2.2) := by
    unfold TransportInterceptor.shouldMock
    rw [show ((host.interceptor.interceptRequest (host.builtRequest method params) host.eff).2.1).requestMocks
        = host.interceptor.requestMocks from rfl]
    rw [hnomock]
  rw [hm]

/-- Claim C2 (witness): on a fresh Mock Peer, `"unknown/method"` has no
mock (hypothesis discharged by evaluation), and the call returns the
`-32601` "Method not found: unknown/method" Response with id 1. -/
theorem sendRequest_unmocked_witness :
    ((MockMCPHost.new true).interceptor.requestMocks.lookup
      (((MockMCPHost.new true).interceptor.interceptRequest
        ((MockMCPHost.new true).builtRequest "unknown/method" .jundefined)
        (MockMCPHost.new true).eff).1).method = none) ∧
    ((MockMCPHost.new true).sendRequest "unknown/method" .jundefined).1 =
      { id := .num 1, result := none,
        error := some { code := -32601, message := "Method not found: unknown/method" } } := by
  refine ⟨rfl, ?_⟩
  rw [sendRequest_unmocked (MockMCPHost.new true) "unknown/method" .jundefined rfl]
  rfl

/-! ## C3: strictly increasing integer request ids -/

/-- Claim C3: `sendRequest` builds its request with integer id
`counter + 1` and advances the counter by one (appending exactly that
request, then one response, to the log); the counter starts at 0 on a
fresh peer, is reset to 0 by `cleanup` (and by nothing else among the
peer's other operations, here `setCapabilities` and
`clearRecordedMessages`); hence the k-th `sendRequest` of a fresh (or
just-cleaned) peer uses id k and the logged ids are exactly `1, …, k`,
strictly increasing — no id is ever reused within one peer lifetime. -/
theorem sendRequest_monotonic_ids :
    (∀ (host : MockMCPHost) (method : String) (params : JValue),
      (host.builtRequest method params).id = .num ((host.requestIdCounter : Int) + 1) ∧
      ((host.sendRequest method params).2).requestIdCounter = host.requestIdCounter + 1 ∧
      ∃ resp, ((host.sendRequest method params).2).interceptor.recordedMessages =
        host.interceptor.recordedMessages ++
          [.request (host.builtRequest method params), .response resp]) ∧
    (MockMCPHost.new true).requestIdCounter = 0 ∧
    (∀ host : MockMCPHost, host.cleanup.requestIdCounter = 0) ∧
    (∀ (host : MockMCPHost) (caps : JValue),
      (host.setCapabilities caps).requestIdCounter = host.requestIdCounter) ∧
    (∀ host : MockMCPHost,
      host.clearRecordedMessages.requestIdCounter = host.requestIdCounter) ∧
    (∀ ms : List String,
      ((MockMCPHost.new true).sendMany ms).loggedRequestIds =
        (List.range' 1 ms.length).map (fun n => RpcId.num (n : Int))) := by
  refine ⟨fun host method params =>
      ⟨rfl, sendRequest_counter host method params, sendRequest_log host method params⟩,
    rfl, fun _ => rfl, fun _ _ => rfl, fun _ => rfl, fun ms => ?_⟩
  rw [sendMany_ids]
  rfl

/-! ## C5: mock registration is replacement, not chaining -/

/-- Claim C5: registering two mocks for the same method leaves the bus
in exactly the state of registering only the second (so every subsequent
`shouldMock` behaves identically), and `shouldMock` on a request with
that method invokes the second handler and returns its result — the
first handler never fires. -/
theorem mockResponse_lastWriteWins {σ : Type} :
    (∀ (t : TransportInterceptor σ) (m : String)
       (h1 h2 : JSONRPCRequest → σ → JSONRPCResponse × σ),
      (t.mockResponse m h1).mockResponse m h2 = t.mockResponse m h2) ∧
    (∀ (t : TransportInterceptor σ) (m : String)
       (h1 h2 : JSONRPCRequest → σ → JSONRPCResponse × σ)
       (req : JSONRPCRequest) (s : σ), req.method = m →
      ((t.mockResponse m h1).mockResponse m h2).shouldMock req s =
        (some (h2 req s).1, (h2 req s).2)) := by
  constructor
  · intro t m h1 h2
    unfold TransportInterceptor.mockResponse
    simp [mapSet_mapSet]
  · intro t m h1 h2 req s hreq
    unfold TransportInterceptor.shouldMock TransportInterceptor.mockResponse
    simp only [hreq, mapSet_mapSet, lookup_mapSet]

/-- Claim C5 (witness): a concrete double registration on a fresh bus —
`shouldMock` on a `"test/m"` request returns the second handler's
response. -/
theorem mockResponse_lastWriteWins_witness :
    (((TransportInterceptor.new Unit).mockResponse "test/m"
        (fun req s => ({ id := req.id, result := some (.jstr "one"), error := none }, s))).mockResponse
        "test/m"
        (fun req s => ({ id := req.id, result := some (.jstr "two"), error := none }, s))).shouldMock
      { id := .num 7, method := "test/m", params := .jundefined } () =
      (some { id := .num 7, result := some (.jstr "two"), error := none }, ()) := by
  exact (mockResponse_lastWriteWins.2 (TransportInterceptor.new Unit) "test/m"
    (fun req s => ({ id := req.id, result := some (.jstr "one"), error := none }, s))
    (fun req s => ({ id := req.id, result := some (.jstr "two"), error := none }, s))
    { id := .num 7, method := "test/m", params := .jundefined } () rfl)

/-! ## C6: reset clears hooks, mocks and log together -/

/-- Claim C6: after `reset`, regardless of prior state, the recorded log
is empty, `shouldMock` returns nothing (`null`) for every request
leaving the effect state untouched, and `interceptRequest` /
`interceptResponse` apply no previously registered hook — they return
their argument unchanged and only log it — because the hook lists, the
mock registry and the log are all cleared together. -/
theorem reset_clears {σ : Type} (t : TransportInterceptor σ) :
    t.reset.getRecordedMessages = [] ∧
    (∀ (req : JSONRPCRequest) (s : σ), t.reset.shouldMock req s = (none, s)) ∧
    (∀ (r : JSONRPCRequest) (s : σ),
      t.reset.interceptRequest r s =
        (r, { requestInterceptors := [], responseInterceptors := [], messageHandlers := [],
              requestMocks := [], recordedMessages := [.request r] }, s)) ∧
    (∀ (r : JSONRPCResponse) (s : σ),
      t.reset.interceptResponse r s =
        (r, { requestInterceptors := [], responseInterceptors := [], messageHandlers := [],
              requestMocks := [], recordedMessages := [.response r] }, s)) ∧
    t.reset.requestInterceptors = [] ∧ t.reset.responseInterceptors = [] ∧
    t.reset.messageHandlers = [] ∧ t.reset.requestMocks = [] :=
  ⟨rfl, fun _ _ => rfl, fun _ _ => rfl, fun _ _ => rfl, rfl, rfl, rfl, rfl⟩

/-! ## C10: the recorded log is only written by the listed operations -/

/-- Claim C10: `getRecordedMessages` returns (a copy of, hence in this
value-semantics embedding exactly) the log value, and every getter is a
pure function of the bus state — so no manipulation of a returned list
can affect a later `getRecordedMessages`, `getRecordedRequests`, or
`findRequestsByMethod` call; registration operations leave the log
unchanged, only `interceptRequest` / `interceptResponse` append to it,
and only `clearRecordedMessages` / `reset` empty it. -/
theorem recordedMessages_frame {σ : Type} (t : TransportInterceptor σ) :
    (t.getRecordedMessages = t.recordedMessages) ∧
    (∀ i, (t.onRequest i).recordedMessages = t.recordedMessages) ∧
    (∀ i, (t.onResponse i).recordedMessages = t.recordedMessages) ∧
    (∀ h, (t.onMessage h).recordedMessages = t.recordedMessages) ∧
    (∀ method handler, (t.mockResponse method handler).recordedMessages = t.recordedMessages) ∧
    (∀ r s, ((t.interceptRequest r s).2.1).recordedMessages = t.recordedMessages ++ [.request r]) ∧
    (∀ r s, ((t.interceptResponse r s).2.1).recordedMessages = t.recordedMessages ++ [.response r]) ∧
    (t.clearRecordedMessages.recordedMessages = []) ∧
    (t.reset.recordedMessages = []) ∧
    (t.getRecordedRequests = t.getRecordedMessages.filterMap
      (fun m => match m with | .request r => some r | _ => none)) ∧
    (∀ method, t.findRequestsByMethod method =
      t.getRecordedRequests.filter (fun r => r.method == method)) :=
  ⟨rfl, fun _ => rfl, fun _ => rfl, fun _ => rfl, fun _ _ => rfl,
   fun _ _ => rfl, fun _ _ => rfl, rfl, rfl, rfl, fun _ => rfl⟩

/-! ## C4: strict mode and the accumulator buckets -/

/-- Claim C4 (counterexample): in strict mode, a `validateRequest` call
whose per-call result carries a warning (a request with no `id` field)
leaves `hasErrors()` false and `getErrors()` empty — the source pushes
the warnings into the accumulator's *warnings* bucket
(`validationWarnings.push(...result.warnings)`), never into the error
bucket, contradicting the claimed promotion into errors. -/
theorem strictMode_promotion_counterexample :
    (MCP.validateRequest (.jobj [("jsonrpc", .jstr "2.0"), ("method", .jstr "test/m")])).warnings =
      ["Request missing id field (should be a notification if intentional)"] ∧
    (((ProtocolValidator.new true).validateRequest
        (.jobj [("jsonrpc", .jstr "2.0"), ("method", .jstr "test/m")])).2).hasErrors = false ∧
    (((ProtocolValidator.new true).validateRequest
        (.jobj [("jsonrpc", .jstr "2.0"), ("method", .jstr "test/m")])).2).getErrors = [] ∧
    "Request missing id field (should be a notification if intentional)" ∉
      (((ProtocolValidator.new true).validateRequest
        (.jobj [("jsonrpc", .jstr "2.0"), ("method", .jstr "test/m")])).2).getErrors := by
  refine ⟨rfl, rfl, rfl, ?_⟩
  intro hmem
  rw [show (((ProtocolValidator.new true).validateRequest
      (.jobj [("jsonrpc", .jstr "2.0"), ("method", .jstr "test/m")])).2).getErrors =
      ([] : List String) from rfl] at hmem
  simp at hmem

/-- Claim C4 (amended): for a strict-mode `ProtocolValidator`, every
`validateRequest` / `validateResponse` call whose per-call result
carries warnings appends those warnings to the accumulator's *warnings*
bucket (so `hasWarnings()` is true afterwards) and the call's errors to
the error bucket; the per-call `ValidationResult` is returned exactly as
computed by the pure validator, never gaining the accumulated entries. -/
theorem strictMode_accumulation (v : ProtocolValidator) (msg : JValue)
    (hstrict : v.strictMode = true) :
    ((MCP.validateRequest msg).warnings ≠ [] →
      ((v.validateRequest msg).2).validationErrors =
        v.validationErrors ++ (MCP.validateRequest msg).errors ∧
      ((v.validateRequest msg).2).validationWarnings =
        v.validationWarnings ++ (MCP.validateRequest msg).warnings ∧
      ((v.validateRequest msg).2).hasWarnings = true) ∧
    ((v.validateRequest msg).1 = MCP.validateRequest msg) ∧
    ((MCP.validateResponse msg).warnings ≠ [] →
      ((v.validateResponse msg).2).validationErrors =
        v.validationErrors ++ (MCP.validateResponse msg).errors ∧
      ((v.validateResponse msg).2).validationWarnings =
        v.validationWarnings ++ (MCP.validateResponse msg).warnings ∧
      ((v.validateResponse msg).2).hasWarnings = true) ∧
    ((v.validateResponse msg).1 = MCP.validateResponse msg) := by
  refine ⟨?_, ?_, ?_, ?_⟩
  · intro hw
    have hie : (MCP.validateRequest msg).warnings.isEmpty = false := by
      simpa [List.isEmpty_iff] using hw
    have happ : v.validationWarnings ++ (MCP.validateRequest msg).warnings ≠ [] := by
      intro hnil
      exact hw (List.append_eq_nil.mp hnil).2
    unfold ProtocolValidator.validateRequest
    simp only [hstrict, hie, Bool.true_and, Bool.not_false, Bool.or_true, if_true]
    exact ⟨trivial, trivial, by simp [ProtocolValidator.hasWarnings, List.isEmpty_iff, happ]⟩
  · unfold ProtocolValidator.validateRequest
    dsimp only
    split <;> rfl
  · intro hw
    have hie : (MCP.validateResponse msg).warnings.isEmpty = false := by
      simpa [List.isEmpty_iff] using hw
    have happ : v.validationWarnings ++ (MCP.validateResponse msg).warnings ≠ [] := by
      intro hnil
      exact hw (List.append_eq_nil.mp hnil).2
    unfold ProtocolValidator.validateResponse
    simp only [hstrict, hie, Bool.true_and, Bool.not_false, Bool.or_true, if_true]
    exact ⟨trivial, trivial, by simp [ProtocolValidator.hasWarnings, List.isEmpty_iff, happ]⟩
  · unfold ProtocolValidator.validateResponse
    dsimp only
    split <;> rfl

/-- Claim C4 (witness): the amended accumulation instantiated at a
fresh strict validator and a request with a missing-id warning. -/
theorem strictMode_accumulation_witness :
    (ProtocolValidator.new true).strictMode = true ∧
    (MCP.validateRequest (.jobj [("jsonrpc", .jstr "2.0"), ("method", .jstr "test/m")])).warnings ≠ [] ∧
    (((ProtocolValidator.new true).validateRequest
        (.jobj [("jsonrpc", .jstr "2.0"), ("method", .jstr "test/m")])).2).validationWarnings =
      ["Request missing id field (should be a notification if intentional)"] ∧
    (((ProtocolValidator.new true).validateRequest
        (.jobj [("jsonrpc", .jstr "2.0"), ("method", .jstr "test/m")])).2).hasWarnings = true := by
  have hweq : (MCP.validateRequest (.jobj [("jsonrpc", .jstr "2.0"), ("method", .jstr "test/m")])).warnings =
      ["Request missing id field (should be a notification if intentional)"] := rfl
  have hw : (MCP.validateRequest (.jobj [("jsonrpc", .jstr "2.0"), ("method", .jstr "test/m")])).warnings ≠ [] := by
    rw [hweq]
    simp
  have h := (strictMode_accumulation (ProtocolValidator.new true)
    (.jobj [("jsonrpc", .jstr "2.0"), ("method", .jstr "test/m")]) rfl).1 hw
  refine ⟨rfl, hw, ?_, h.2.2⟩
  rw [h.2.1, hweq]
  rfl

/-! ## C7: the recorder state machine -/

/-- Claim C7: `startRecording` throws exactly when already recording
(otherwise it resets the working log, the embedded validator and `t0`);
`stopRecording` throws exactly when not recording; `recordMessage`
throws exactly when not recording and otherwise always appends
`{timestamp, direction, message}` — for every message, with no validity
condition: an invalid message only changes the validator accumulator
(the console warning is dropped).  The concrete scenario
start–record–record–stop (the second message being invalid) leaves
`getSession().messages` with length 2. -/
theorem recorder_state_machine :
    (∀ (r : SessionRecorder) (now : Nat),
      (r.recording = true → r.startRecording now = .error "Already recording") ∧
      (r.recording = false → r.startRecording now =
        .ok { r with recording := true, startTime := now, messages := [],
                     validator := r.validator.reset })) ∧
    (∀ r : SessionRecorder,
      (r.recording = false → r.stopRecording = .error "Not currently recording") ∧
      (r.recording = true → r.stopRecording = .ok { r with recording := false })) ∧
    (∀ (r : SessionRecorder) (d : Direction) (msg : JValue) (now : Nat),
      (r.recording = false → r.recordMessage d msg now =
        .error "Not currently recording. Call startRecording() first.") ∧
      (r.recording = true → r.recordMessage d msg now =
        .ok { r with validator := (r.validator.validateMessage msg).2,
                     messages := r.messages ++
                       [{ timestamp := (now : Int) - (r.startTime : Int),
                          direction := d, message := msg }] })) ∧
    (((((SessionRecorder.new
          { recordedDate := "", hostName := "TestHost", hostVersion := none,
            protocolVersion := "2024-11-05", description := none,
            source := none }).startRecording 0).bind
        (fun r => r.recordMessage .clientToServer
          (.jobj [("jsonrpc", .jstr "2.0"), ("id", .jnum 1), ("method", .jstr "ping")]) 5)).bind
        (fun r => r.recordMessage .serverToClient (.jobj []) 9)).bind
        (fun r => r.stopRecording)).map
      (fun r => (r.getSession "2024-01-01T00:00:00.000Z" .jundefined .jundefined).messages.length) =
      .ok 2 := by
  refine ⟨?_, ?_, ?_, ?_⟩
  · intro r now
    constructor
    · intro h
      unfold SessionRecorder.startRecording
      rw [h]
      rfl
    · intro h
      unfold SessionRecorder.startRecording
      rw [h]
      rfl
  · intro r
    constructor
    · intro h
      unfold SessionRecorder.stopRecording
      rw [h]
      rfl
    · intro h
      unfold SessionRecorder.stopRecording
      rw [h]
      rfl
  · intro r d msg now
    constructor
    · intro h
      unfold SessionRecorder.recordMessage
      rw [h]
      rfl
    · intro h
      unfold SessionRecorder.recordMessage
      rw [h]
      rfl
  · rfl

/-- Claim C7 (witness): the throwing branches instantiated at a fresh
(idle) recorder. -/
theorem recorder_state_machine_witness :
    ((SessionRecorder.new
      { recordedDate := "", hostName := "TestHost", hostVersion := none,
        protocolVersion := "2024-11-05", description := none,
        source := none }).recording = false) ∧
    ((SessionRecorder.new
      { recordedDate := "", hostName := "TestHost", hostVersion := none,
        protocolVersion := "2024-11-05", description := none,
        source := none }).stopRecording = .error "Not currently recording") ∧
    ((SessionRecorder.new
      { recordedDate := "", hostName := "TestHost", hostVersion := none,
        protocolVersion := "2024-11-05", description := none,
        source := none }).recordMessage .clientToServer (.jobj []) 3 =
      .error "Not currently recording. Call startRecording() first.") := by
  refine ⟨rfl, ?_, ?_⟩
  · exact (recorder_state_machine.2.1 (SessionRecorder.new
      { recordedDate := "", hostName := "TestHost", hostVersion := none,
        protocolVersion := "2024-11-05", description := none,
        source := none })).1 rfl
  · exact (recorder_state_machine.2.2.1 (SessionRecorder.new
      { recordedDate := "", hostName := "TestHost", hostVersion := none,
        protocolVersion := "2024-11-05", description := none,
        source := none }) .clientToServer (.jobj []) 3).1 rfl

/-! ## C8: session export / load round-trip -/

/-- A clean JSON tree is not `undefined`. -/
theorem clean_not_undefined (v : JValue) (h : v.clean = true) : v.isUndefined = false := by
  cases v <;> first | rfl | exact absurd h (by simp [JValue.clean])

mutual

/-- Stringify-then-parse is the identity on clean trees. -/
theorem jsonStrip_clean : ∀ v : JValue, v.clean = true → jsonStrip v = v
  | .jundefined, h => absurd h (by simp [JValue.clean])
  | .jnull, _ => rfl
  | .jbool _, _ => rfl
  | .jnum _, _ => rfl
  | .jstr _, _ => rfl
  | .jarr elems, h => by
      rw [jsonStrip, jsonStripList_clean elems (by simpa [JValue.clean] using h)]
  | .jobj fields, h => by
      rw [jsonStrip, jsonStripFields_clean fields (by simpa [JValue.clean] using h)]

/-- Array version of `jsonStrip_clean`. -/
theorem jsonStripList_clean : ∀ es : List JValue, cleanList es = true → jsonStripList es = es
  | [], _ => rfl
  | e :: es, h => by
      have h1 : e.clean = true ∧ cleanList es = true := by
        simpa [cleanList, Bool.and_eq_true] using h
      rw [jsonStripList, clean_not_undefined e h1.1]
      simp only [Bool.false_eq_true, if_false]
      rw [jsonStrip_clean e h1.1, jsonStripList_clean es h1.2]

/-- Object-fields version of `jsonStrip_clean`. -/
theorem jsonStripFields_clean : ∀ fs : List (String × JValue), cleanFields fs = true →
    jsonStripFields fs = fs
  | [], _ => rfl
  | (k, v) :: fs, h => by
      have h1 : v.clean = true ∧ cleanFields fs = true := by
        simpa [cleanFields, Bool.and_eq_true] using h
      rw [jsonStripFields]
      rw [clean_not_undefined v h1.1]
      simp only [Bool.false_eq_true, if_false]
      rw [jsonStrip_clean v h1.1, jsonStripFields_clean fs h1.2]

end

/-- An encoded session message with a clean embedded message survives
the stringify / parse round trip. -/
theorem stripMessageJson (m : SessionMessage) (h : m.message.clean = true) :
    jsonStrip (sessionMessageToJson m) = sessionMessageToJson m := by
  unfold sessionMessageToJson
  rw [jsonStrip]
  rw [show jsonStripFields
      [("timestamp", JValue.jnum m.timestamp),
       ("direction", JValue.jstr m.direction.toWire),
       ("message", m.message)] =
      ("timestamp", JValue.jnum m.timestamp) ::
      ("direction", JValue.jstr m.direction.toWire) ::
      jsonStripFields [("message", m.message)] from rfl]
  rw [jsonStripFields, clean_not_undefined m.message h]
  simp only [Bool.false_eq_true, if_false]
  rw [jsonStrip_clean m.message h]
  rfl

/-- The encoded messages array survives the round trip when every
embedded message is clean. -/
theorem stripMessagesJson (ms : List SessionMessage)
    (h : ∀ m ∈ ms, m.message.clean = true) :
    jsonStripList (ms.map sessionMessageToJson) = ms.map sessionMessageToJson := by
  induction ms with
  | nil => rfl
  | cons m ms ih =>
    rw [List.map_cons, jsonStripList]
    rw [show (sessionMessageToJson m).isUndefined = false from rfl]
    simp only [Bool.false_eq_true, if_false]
    rw [stripMessageJson m (h m (by simp)), ih (fun x hx => h x (by simp [hx]))]

/-- The encoded metadata (all string fields) always survives the round
trip. -/
theorem stripMetadataJson (md : SessionMetadata) :
    jsonStrip (metadataToJson md) = metadataToJson md := by
  obtain ⟨rd, hn, hv, pv, ds, sc⟩ := md
  cases hv <;> cases ds <;> cases sc <;> rfl

/-- Claim C8 (amended): for every recorder state whose recorded
messages contain no `undefined` value (`JSON.stringify` silently drops
`undefined`-valued object fields, so such messages cannot round-trip
verbatim), `loadSession(exportSession(...))` succeeds and returns a
document whose `messages` array equals the encoding of the recorded
messages and whose metadata carries the recorder's `hostName` and
`protocolVersion`; and `loadSession` throws exactly when the parsed
document's `metadata` or `messages` field is absent or falsy, or its
`messages` is not an array. -/
theorem session_roundtrip :
    (∀ (r : SessionRecorder) (isoNow : String) (constraints capabilities : JValue),
      (∀ m ∈ r.messages, m.message.clean = true) →
      ∃ doc, r.exportThenLoad isoNow constraints capabilities = .ok doc ∧
        doc.get "messages" = .jarr (r.messages.map sessionMessageToJson) ∧
        (doc.get "metadata").get "hostName" = .jstr r.metadata.hostName ∧
        (doc.get "metadata").get "protocolVersion" = .jstr r.metadata.protocolVersion) ∧
    (∀ doc : JValue, throws (loadSession doc) =
      (!(doc.get "metadata").truthy || !(doc.get "messages").truthy ||
       !(doc.get "messages").isArray)) := by
  constructor
  · intro r isoNow c k hclean
    have hD : jsonStrip (sessionToJson (r.getSession isoNow c k)) =
        .jobj (("metadata", metadataToJson { r.metadata with recordedDate := isoNow }) ::
               ("messages", .jarr (r.messages.map sessionMessageToJson)) ::
               jsonStripFields [("constraints", c), ("capabilities", k)]) := by
      unfold sessionToJson SessionRecorder.getSession
      rw [jsonStrip]
      rw [jsonStripFields]
      rw [show (metadataToJson { r.metadata with recordedDate := isoNow }).isUndefined = false from rfl]
      simp only [Bool.false_eq_true, if_false]
      rw [jsonStripFields]
      rw [show (JValue.jarr (r.messages.map sessionMessageToJson)).isUndefined = false from rfl]
      simp only [Bool.false_eq_true, if_false]
      rw [stripMetadataJson]
      rw [jsonStrip]
      rw [stripMessagesJson r.messages hclean]
    obtain ⟨rec, st, msgs, ⟨rd, hn, hv, pv, ds, sc⟩, val⟩ := r
    refine ⟨.jobj (("metadata", metadataToJson
          { recordedDate := isoNow, hostName := hn, hostVersion := hv,
            protocolVersion := pv, description := ds, source := sc }) ::
        ("messages", .jarr (msgs.map sessionMessageToJson)) ::
        jsonStripFields [("constraints", c), ("capabilities", k)]), ?_, ?_, ?_, ?_⟩
    · unfold SessionRecorder.exportThenLoad
      rw [hD]
      rfl
    · rfl
    · rfl
    · cases hv <;> rfl
  · intro doc
    cases t1 : (doc.get "metadata").truthy <;>
    cases t2 : (doc.get "messages").truthy <;>
    cases t3 : (doc.get "messages").isArray <;>
    simp [loadSession, throws, t1, t2, t3]

/-- Claim C8 (counterexample): two divergences from the claim as
stated.  (1) `loadSession('{"metadata":0,"messages":[]}')` throws even
though the document lacks neither `metadata` nor `messages` and its
`messages` is an array — the source tests JS truthiness, not presence.
(2) A recorder state holding one message with an `undefined`-valued
`params` key exports and re-loads to a `messages` array different from
the recorded one, because `JSON.stringify` drops the key. -/
theorem session_roundtrip_counterexample :
    (loadSession (.jobj [("metadata", .jnum 0), ("messages", .jarr [])]) =
      .error "Invalid session format: missing metadata or messages") ∧
    ((JValue.jobj [("metadata", .jnum 0), ("messages", .jarr [])]).hasField "metadata" = true) ∧
    (((JValue.jobj [("metadata", .jnum 0), ("messages", .jarr [])]).get "messages").isArray = true) ∧
    (({ recording := false,
        startTime := 0,
        messages := [{ timestamp := 0,
                       direction := .clientToServer,
                       message := .jobj [("jsonrpc", .jstr "2.0"), ("id", .jnum 1),
                                         ("method", .jstr "test/m"), ("params", .jundefined)] }],
        metadata := { recordedDate := "",
                      hostName := "TestHost",
                      hostVersion := none,
                      protocolVersion := "2024-11-05",
                      description := none,
                      source := none },
        validator := ProtocolValidator.new false } : SessionRecorder).exportThenLoad
        "2024-01-01T00:00:00.000Z" .jundefined .jundefined =
      .ok (.jobj [("metadata", .jobj [("recordedDate", .jstr "2024-01-01T00:00:00.000Z"),
                                      ("hostName", .jstr "TestHost"),
                                      ("protocolVersion", .jstr "2024-11-05")]),
                  ("messages", .jarr [.jobj [("timestamp", .jnum 0),
                    ("direction", .jstr "client-to-server"),
                    ("message", .jobj [("jsonrpc", .jstr "2.0"), ("id", .jnum 1),
                                       ("method", .jstr "test/m")])]])])) ∧
    (JValue.jarr [.jobj [("timestamp", .jnum 0),
        ("direction", .jstr "client-to-server"),
        ("message", .jobj [("jsonrpc", .jstr "2.0"), ("id", .jnum 1),
                           ("method", .jstr "test/m")])]] ≠
     .jarr (([{ timestamp := 0,
                direction := Direction.clientToServer,
                message := .jobj [("jsonrpc", .jstr "2.0"), ("id", .jnum 1),
                                  ("method", .jstr "test/m"), ("params", .jundefined)] }] :
          List SessionMessage).map sessionMessageToJson)) := by
  refine ⟨rfl, rfl, rfl, rfl, ?_⟩
  simp [sessionMessageToJson]

/-- Claim C8 (witness): the amended round-trip instantiated at a
one-message recorder (hypothesis: its message is clean). -/
theorem session_roundtrip_witness :
    (∀ m ∈ ([{ timestamp := 5,
               direction := Direction.clientToServer,
               message := .jobj [("jsonrpc", .jstr "2.0"), ("id", .jnum 1),
                                 ("method", .jstr "ping")] }] : List SessionMessage),
      m.message.clean = true) ∧
    ∃ doc, ({ recording := true,
              startTime := 0,
              messages := [{ timestamp := 5,
                             direction := .clientToServer,
                             message := .jobj [("jsonrpc", .jstr "2.0"), ("id", .jnum 1),
                                               ("method", .jstr "ping")] }],
              metadata := { recordedDate := "",
                            hostName := "TestHost",
                            hostVersion := none,
                            protocolVersion := "2024-11-05",
                            description := none,
                            source := none },
              validator := ProtocolValidator.new false } : SessionRecorder).exportThenLoad
        "2024-02-02T00:00:00.000Z" .jundefined .jundefined = .ok doc ∧
      doc.get "messages" = .jarr
        (([{ timestamp := 5,
             direction := Direction.clientToServer,
             message := .jobj [("jsonrpc", .jstr "2.0"), ("id", .jnum 1),
                               ("method", .jstr "ping")] }] : List SessionMessage).map
          sessionMessageToJson) ∧
      (doc.get "metadata").get "hostName" = .jstr "TestHost" ∧
      (doc.get "metadata").get "protocolVersion" = .jstr "2024-11-05" := by
  have hclean : ∀ m ∈ ([{ timestamp := 5,
                          direction := Direction.clientToServer,
                          message := .jobj [("jsonrpc", .jstr "2.0"), ("id", .jnum 1),
                                            ("method", .jstr "ping")] }] : List SessionMessage),
      m.message.clean = true := by
    intro m hm
    simp at hm
    rw [hm]
    rfl
  exact ⟨hclean, session_roundtrip.1
    { recording := true,
      startTime := 0,
      messages := [{ timestamp := 5,
                     direction := .clientToServer,
                     message := .jobj [("jsonrpc", .jstr "2.0"), ("id", .jnum 1),
                                       ("method", .jstr "ping")] }],
      metadata := { recordedDate := "",
                    hostName := "TestHost",
                    hostVersion := none,
                    protocolVersion := "2024-11-05",
                    description := none,
                    source := none },
      validator := ProtocolValidator.new false }
    "2024-02-02T00:00:00.000Z" .jundefined .jundefined hclean⟩

/-! ## C9: session comparison (spec-modelled) -/

/-- Comparing an aligned entry with itself yields no difference. -/
theorem compareEntry_refl (i : Nat) (x : SessionMessage) : compareEntry i x x = [] := by
  unfold compareEntry
  cases h : methodOf x.message <;> simp [h]

/-- The positional walk over equal lists yields no difference. -/
theorem compareAligned_refl : ∀ (i : Nat) (l : List SessionMessage), compareAligned i l l = []
  | _, [] => by simp [compareAligned]
  | i, x :: xs => by
      rw [compareAligned, compareEntry_refl, compareAligned_refl (i + 1) xs]
      rfl

/-- The positional walk skips an equal shared prefix, advancing the
index by its length. -/
theorem compareAligned_append (pre : List SessionMessage) :
    ∀ (i : Nat) (xs ys : List SessionMessage),
      compareAligned i (pre ++ xs) (pre ++ ys) = compareAligned (i + pre.length) xs ys := by
  induction pre with
  | nil => intro i xs ys; simp
  | cons p pre ih =>
    intro i xs ys
    rw [List.cons_append, List.cons_append, compareAligned, compareEntry_refl, ih]
    simp [Nat.add_assoc, Nat.add_comm 1 pre.length]

/-- Claim C9: `compareSessions(a, a)` is always `{identical: true,
differences: []}`; and for two sessions that differ only in the method
of one message at one index (same directions, both entries carrying a
method), `compareSessions` reports `identical: false` with at least one
difference string — comparison being strictly positional with
`identical` defined as `differences.length === 0`.  (`SessionPlayer` is
not among the provided sources; `compareSessions` is modelled from the
spec, §4.5/§8.) -/
theorem compareSessions_spec :
    (∀ a : RecordedSession, compareSessions a a = { identical := true, differences := [] }) ∧
    (∀ (a b : RecordedSession) (pre post : List SessionMessage) (x y : SessionMessage),
      a.messages = pre ++ x :: post → b.messages = pre ++ y :: post →
      x.direction = y.direction →
      (∃ mx, methodOf x.message = some mx) →
      (∃ my, methodOf y.message = some my) →
      methodOf x.message ≠ methodOf y.message →
      (compareSessions a b).identical = false ∧ (compareSessions a b).differences ≠ []) := by
  constructor
  · intro a
    unfold compareSessions
    simp [compareAligned_refl]
  · intro a b pre post x y ha hb hdir hmx hmy hne
    obtain ⟨mx, hx⟩ := hmx
    obtain ⟨my, hy⟩ := hmy
    have hmm : mx ≠ my := by
      intro h
      exact hne (by rw [hx, hy, h])
    have hlen : a.messages.length = b.messages.length := by
      rw [ha, hb]
      simp
    have hAligned : compareAligned 0 a.messages b.messages =
        compareEntry pre.length x y ++ compareAligned (pre.length + 1) post post := by
      rw [ha, hb, compareAligned_append, compareAligned]
      simp
    have hEntry : compareEntry pre.length x y =
        ["Message " ++ toString pre.length ++ ": method differs (" ++ mx ++ " vs " ++ my ++ ")"] := by
      unfold compareEntry
      rw [hx, hy]
      simp [hdir, hmm]
    unfold compareSessions
    simp [hlen, hAligned, hEntry, compareAligned_refl]

/-- Claim C9 (witness): the two one-message sessions of the repository's
reference test — `ping` vs `initialize` — compared via the theorem. -/
theorem compareSessions_spec_witness :
    (({ metadata := { recordedDate := "2024-01-01T00:00:00.000Z",
                      hostName := "Test",
                      hostVersion := none,
                      protocolVersion := "2024-11-05",
                      description := none,
                      source := none },
        messages := [{ timestamp := 0,
                       direction := .clientToServer,
                       message := .jobj [("jsonrpc", .jstr "2.0"), ("id", .jnum 1),
                                         ("method", .jstr "ping")] }],
        constraints := .jundefined,
        capabilities := .jundefined } : RecordedSession).messages =
      [] ++ { timestamp := 0,
              direction := Direction.clientToServer,
              message := .jobj [("jsonrpc", .jstr "2.0"), ("id", .jnum 1),
                                ("method", .jstr "ping")] } :: []) ∧
    (compareSessions
      { metadata := { recordedDate := "2024-01-01T00:00:00.000Z",
                      hostName := "Test",
                      hostVersion := none,
                      protocolVersion := "2024-11-05",
                      description := none,
                      source := none },
        messages := [{ timestamp := 0,
                       direction := .clientToServer,
                       message := .jobj [("jsonrpc", .jstr "2.0"), ("id", .jnum 1),
                                         ("method", .jstr "ping")] }],
        constraints := .jundefined,
        capabilities := .jundefined }
      { metadata := { recordedDate := "2024-01-01T00:00:00.000Z",
                      hostName := "Test",
                      hostVersion := none,
                      protocolVersion := "2024-11-05",
                      description := none,
                      source := none },
        messages := [{ timestamp := 0,
                       direction := .clientToServer,
                       message := .jobj [("jsonrpc", .jstr "2.0"), ("id", .jnum 1),
                                         ("method", .jstr "initialize")] }],
        constraints := .jundefined,
        capabilities := .jundefined }).identical = false := by
  refine ⟨rfl, ?_⟩
  exact (compareSessions_spec.2 _ _ [] []
    { timestamp := 0,
      direction := Direction.clientToServer,
      message := .jobj [("jsonrpc", .jstr "2.0"), ("id", .jnum 1),
                        ("method", .jstr "ping")] }
    { timestamp := 0,
      direction := Direction.clientToServer,
      message := .jobj [("jsonrpc", .jstr "2.0"), ("id", .jnum 1),
                        ("method", .jstr "initialize")] }
    rfl rfl rfl ⟨"ping", rfl⟩ ⟨"initialize", rfl⟩ (by decide)).1

end MCP
